import Mathlib

/-!
Verification of the batch text-classification pipeline of the
`agressive_language_detection` service
(`src/agressive_language_detection/api/utils.py`).

The embedding mirrors `process_file` and `detect_aggresive_language` from
`utils.py`.  Python strings are Lean `String`s; the filesystem result store
is an association list from result paths to stored result sets; the LLM
collaborator is a parameter `client : Nat → String → Except String String`
giving, for the k-th collaborator call and the submitted window text, either
the model message content (`Except.ok`) or an exception rendered as a string
(`Except.error`).  The unbounded `while True:` loop is modelled with explicit
fuel; a result of `none` for every fuel value means the loop does not
terminate.
-/

/-- Python's ASCII whitespace for `str.split()` with no arguments:
`\t \n \v \f \r`, space, and the separator control characters 28–31. -/
def pyWS (c : Char) : Bool :=
  (9 ≤ c.toNat && c.toNat ≤ 13) || c.toNat == 32 || (28 ≤ c.toNat && c.toNat ≤ 31)

/-- Word counting core for `len(s.split())`: counts maximal runs of
non-whitespace characters.  `inw` records whether the previous character
was inside a word. -/
def countWordsAux : Bool → List Char → Nat
  | _, [] => 0
  | inw, c :: rest =>
    if pyWS c then countWordsAux false rest
    else (if inw then 0 else 1) + countWordsAux true rest

/-- Python `len(s.split())` — the number of whitespace-separated words. -/
def countWords (s : String) : Nat := countWordsAux false s.data

/-- Python `s.startswith(pre)`. -/
def pyStartsWith (s pre : String) : Bool := pre.data.isPrefixOf s.data

/-- Fuel-indexed core of Python `s.split(sep)` for a non-empty separator
`c0 :: cs`: scan left to right, cutting at each (non-overlapping) occurrence
of the separator.  With `fuel ≥ s.length` the fuel never runs out, since
every recursive call consumes at least one character. -/
def pySplitF (c0 : Char) (cs : List Char) : Nat → List Char → List (List Char)
  | 0, s => [s]
  | _ + 1, [] => [[]]
  | fuel + 1, c :: rest =>
    if (c0 :: cs).isPrefixOf (c :: rest) then
      [] :: pySplitF c0 cs fuel (rest.drop cs.length)
    else
      match pySplitF c0 cs fuel rest with
      | [] => [[c]]
      | p :: ps => (c :: p) :: ps

/-- Python `s.split(sep)` for a non-empty separator.  (Python raises
`ValueError` on an empty separator; the pipeline only ever splits on the
marker token and on a single space, both non-empty, so the `[]` branch is
never exercised.) -/
def pySplit (sep s : String) : List String :=
  match sep.data with
  | [] => [s]
  | c0 :: cs => (pySplitF c0 cs s.data.length s.data).map (fun l => ⟨l⟩)

/-- The literal marker token separating the two fields of a model
response (`utils.py` line 75). -/
def markerTok : String := "threat_level_justification"

/-- The verdict parser of `utils.py` lines 75–76:

    threat_level, justification = pred.split('threat_level_justification')
    threat_level = "".join(threat_level.split(' ')[1:])

Tuple unpacking into two names succeeds exactly when the split yields
exactly two segments (one occurrence of the marker); any other shape raises
`ValueError`, modelled as `none`. -/
def parseVerdict (pred : String) : Option (String × String) :=
  match pySplit markerTok pred with
  | [l, r] => some (String.join ((pySplit " " l).drop 1), r)
  | _ => none

/-- One hexadecimal digit (lowercase), as produced by Python's `json` module. -/
def hexDigit (n : Nat) : Char :=
  if n < 10 then Char.ofNat (48 + n) else Char.ofNat (87 + n % 6)

/-- Four lowercase hex digits, as in Python's `\uXXXX` escapes. -/
def hex4 (n : Nat) : String :=
  ⟨[hexDigit (n / 4096 % 16), hexDigit (n / 256 % 16),
    hexDigit (n / 16 % 16), hexDigit (n % 16)]⟩

/-- The escape of one character inside a JSON string literal, following
Python `json.dumps` with its default `ensure_ascii=True`. -/
def jsonEscapeChar (c : Char) : String :=
  if c = '"' then "\\\""
  else if c = '\\' then "\\\\"
  else if c = '\n' then "\\n"
  else if c = '\r' then "\\r"
  else if c = '\t' then "\\t"
  else if c.toNat = 8 then "\\b"
  else if c.toNat = 12 then "\\f"
  else if c.toNat < 32 then "\\u" ++ hex4 c.toNat
  else if c.toNat < 127 then ⟨[c]⟩
  else if c.toNat < 65536 then "\\u" ++ hex4 c.toNat
  else
    "\\u" ++ hex4 (55296 + (c.toNat - 65536) / 1024)
      ++ "\\u" ++ hex4 (56320 + (c.toNat - 65536) % 1024)

/-- Python `json.dumps` applied to a string value. -/
def jsonDumps (s : String) : String :=
  "\"" ++ String.join (s.data.map jsonEscapeChar) ++ "\""

/-- The function `detect_aggresive_language` of `utils.py` lines 16–35.
The whole body — the chat-completion call and the extraction of the message
content — sits inside `try: ... except Exception as e:`; the `behavior`
argument is the outcome of the client call (`Except.ok content` when the
call returns a message with the given content, `Except.error e` when any
exception is raised, `e` being its string rendering `str(e)`).  On success
it returns `("success", json.dumps(content))`, on any exception
`("error", str(e))`. -/
def detect_aggresive_language (behavior : Except String String) : String × String :=
  match behavior with
  | .ok content => ("success", jsonDumps content)
  | .error e => ("error", e)

/-- One record of the persisted result list (`utils.py` lines 78–96).
Records built in the `except` branch carry `status = "error"` and an
`error` message; they are never appended to the result list. -/
structure Verdict where
  threat_level : String
  justification : String
  response : String
  status : String
  text : String
  error : Option String
deriving DecidableEq, Repr

/-- The loop state of `process_file`'s `while True:` loop: the lines of the
source not yet read (without their trailing newline), the accumulation
buffer `pred_txt`, the result list `resp`, and the texts submitted to the
collaborator so far (so `sent.length` is the number of collaborator calls
made so far). -/
structure PState where
  rest : List String
  buf : String
  resp : List Verdict
  sent : List String
deriving DecidableEq, Repr

/-- The `while True:` loop of `process_file` (`utils.py` lines 58–105),
with explicit fuel.  `inf.readline()` yields each remaining line with its
trailing `"\n"`, then `""` forever once the source is exhausted:

* a line starting with `'---'` or `'&gt;&gt;'` is skipped;
* otherwise `pred_txt = pred_txt + " " + l`;
* if `len(pred_txt.split()) < 50 and l != ''`, keep accumulating;
* otherwise flush: call `detect_aggresive_language`, ignore its status tag,
  and try to parse the payload; on success append an ok-verdict and reset
  the buffer, on failure (`except`) keep the buffer and append nothing —
  the `continue` in the error branch also skips the EOF `break`;
* after a successful flush, `if l == '': break` returns the result list.

Returns `some (resp, sent)` when the loop breaks within `fuel` iterations,
`none` otherwise. -/
def stepRun (client : Nat → String → Except String String) :
    Nat → PState → Option (List Verdict × List String)
  | 0, _ => none
  | fuel + 1, st =>
    let lr : String × List String :=
      match st.rest with
      | [] => ("", [])
      | x :: xs => (x ++ "\n", xs)
    let l := lr.1
    let rest' := lr.2
    if pyStartsWith l "---" then
      stepRun client fuel ⟨rest', st.buf, st.resp, st.sent⟩
    else if pyStartsWith l "&gt;&gt;" then
      stepRun client fuel ⟨rest', st.buf, st.resp, st.sent⟩
    else
      let buf' := st.buf ++ " " ++ l
      if countWords buf' < 50 ∧ l ≠ "" then
        stepRun client fuel ⟨rest', buf', st.resp, st.sent⟩
      else
        let pred := (detect_aggresive_language (client st.sent.length buf')).2
        let sent' := st.sent ++ [buf']
        match parseVerdict pred with
        | some tj =>
          let v : Verdict := ⟨tj.1, tj.2, pred, "ok", buf', none⟩
          if l = "" then some (st.resp ++ [v], sent')
          else stepRun client fuel ⟨rest', "", st.resp ++ [v], sent'⟩
        | none => stepRun client fuel ⟨rest', buf', st.resp, sent'⟩

/-- The durable result store (`/nycc_data/processed/` in `utils.py`): an
association list from result paths to stored result sets.  A JSON round
trip on a list of string-valued records is the identity, so stored values
are kept structured. -/
abbrev Store : Type := List (String × List Verdict)

/-- Lookup in the result store (`os.path.exists` + `json.load`). -/
def lookupStore : Store → String → Option (List Verdict)
  | [], _ => none
  | (k, v) :: rest, key => if k = key then some v else lookupStore rest key

/-- Python `fname.replace('/', '_')`. -/
def replaceSlash (s : String) : String :=
  ⟨s.data.map (fun c => if c = '/' then '_' else c)⟩

/-- The derived result path of `utils.py` lines 46–47:
`/nycc_data/processed/{fname.replace('/','_')}_processed.json`. -/
def resPath (file : String) : String :=
  "/nycc_data/processed/" ++ replaceSlash file ++ "_processed.json"

/-- `process_file` of `utils.py` lines 37–108.  `store` is the state of the
processed-results directory, `src` the lines of the source document, and
`fuel` bounds the loop.  On a cache hit the stored result set is returned
verbatim with zero collaborator calls and zero writes; on a cache miss the
loop runs and, on completion, the result set is written at the result path.
Returns the result set, the updated store, and the list of texts submitted
to the collaborator (in call order); `none` when the loop exhausts the
fuel. -/
def process_file (client : Nat → String → Except String String) (fuel : Nat)
    (store : Store) (file : String) (src : List String) :
    Option (List Verdict × Store × List String) :=
  match lookupStore store (resPath file) with
  | some resp => some (resp, store, [])
  | none =>
    match stepRun client fuel ⟨src, "", [], []⟩ with
    | none => none
    | some (resp, sent) => some (resp, (resPath file, resp) :: store, sent)

/-- A line of `n` copies of the word `w`, single-space separated. -/
def mkWords (n : Nat) : String := String.intercalate " " (List.replicate n "w")

/-- A collaborator that always succeeds with a fixed well-formed response. -/
def okClient : Nat → String → Except String String :=
  fun _ _ => .ok "lvl high threat_level_justification fine"

/-- A collaborator that always raises (connection refused, say). -/
def badClient : Nat → String → Except String String :=
  fun _ _ => .error "offline"

/-- The six labels the system prompt asks for; the parser never checks
membership (spec §4.2). -/
def recognizedLabels : List String :=
  ["negligible", "low", "low-moderate", "moderate", "moderate-high", "high"]

/-- Whether `pat` occurs as a contiguous substring of `s`. -/
def hasSub (pat : List Char) : List Char → Bool
  | [] => pat.isEmpty
  | c :: rest => pat.isPrefixOf (c :: rest) || hasSub pat rest

/-- Fuel-indexed split at the FIRST occurrence of the separator `c0 :: cs`:
the segment before it and the segment after it, `none` when it does not
occur.  Used only to state the spec's description of the parser. -/
def splitFirstF (c0 : Char) (cs : List Char) : Nat → List Char → Option (List Char × List Char)
  | 0, _ => none
  | _ + 1, [] => none
  | fuel + 1, c :: rest =>
    if (c0 :: cs).isPrefixOf (c :: rest) then some ([], rest.drop cs.length)
    else
      match splitFirstF c0 cs fuel rest with
      | none => none
      | some (a, b) => some (c :: a, b)

/-- Modelled from the spec (§4.2), for comparison with the code's
`parseVerdict`: "split the raw response string on the first occurrence of
the marker token.  The left segment, with its leading whitespace-delimited
token discarded and remaining tokens rejoined without separators, becomes
`threat_level`.  The right segment becomes `justification` verbatim." -/
def parseSpecFirstOccurrence (pred : String) : Option (String × String) :=
  match splitFirstF 't' "hreat_level_justification".data pred.data.length pred.data with
  | none => none
  | some (a, b) => some (String.join ((pySplit " " ⟨a⟩).drop 1), ⟨b⟩)

/-- A collaborator that raises on its first call and then behaves. -/
def flakyClient : Nat → String → Except String String :=
  fun k _ =>
    if k = 0 then .error "boom" else .ok "lvl high threat_level_justification fine"

/-- The window text accumulated by the loop for the 3-line, 20-words-per-line
scenario: each raw line keeps its trailing newline and is preceded by the
single space of `pred_txt = pred_txt + " " + l`. -/
def winC7 : String :=
  "" ++ " " ++ (mkWords 20 ++ "\n") ++ " " ++ (mkWords 20 ++ "\n") ++ " " ++ (mkWords 20 ++ "\n")

/-- The full text of the single window a below-minimum source accumulates
by end of file: every line preceded by a single space and keeping its
trailing newline, plus the final space appended by the EOF iteration. -/
def windowText (src : List String) : String :=
  List.foldl (fun b x => b ++ " " ++ (x ++ "\n")) "" src ++ " " ++ ""

/-- Whether `process_file` would skip this source line: the code tests the
line as read, i.e. with its trailing newline, against the two prefixes. -/
def isCommentLine (x : String) : Bool :=
  pyStartsWith (x ++ "\n") "---" || pyStartsWith (x ++ "\n") "&gt;&gt;"

theorem data_append_nl (s : String) : (s ++ "\n").data = s.data ++ ['\n'] := by
  rw [String.data_append]

theorem append_nl_ne_empty (s : String) : s ++ "\n" ≠ "" := by
  intro h
  have hd : (s ++ "\n").data = ("" : String).data := by rw [h]
  rw [data_append_nl] at hd
  simp at hd

theorem countWordsAux_append_ws (c : Char) (hc : pyWS c = true) (ys : List Char) :
    ∀ (xs : List Char) (inw : Bool),
      countWordsAux inw (xs ++ c :: ys) = countWordsAux inw xs + countWordsAux false ys := by
  intro xs
  induction xs with
  | nil => intro inw; simp [countWordsAux, hc]
  | cons x xs ih =>
    intro inw
    by_cases hx : pyWS x
    · simp [countWordsAux, hx, ih]
    · simp [countWordsAux, hx, ih, Nat.add_assoc]

theorem countWords_append_space (a b : String) :
    countWords (a ++ " " ++ b) = countWords a + countWords b := by
  unfold countWords
  have hd : (a ++ " " ++ b).data = a.data ++ ' ' :: b.data := by
    rw [String.data_append, String.data_append]
    simp [List.append_assoc]
  rw [hd, countWordsAux_append_ws ' ' (by decide) b.data a.data false]

theorem countWords_append_nl (a : String) :
    countWords (a ++ "\n") = countWords a := by
  unfold countWords
  rw [data_append_nl]
  have h := countWordsAux_append_ws '\n' (by decide) [] a.data false
  simpa [countWordsAux] using h

theorem stepRun_rest_length {client : Nat → String → Except String String} :
    ∀ (fuel : Nat) (st : PState) (r : List Verdict × List String),
      stepRun client fuel st = some r → st.rest.length < fuel := by
  intro fuel
  induction fuel with
  | zero => intro st r h; simp [stepRun] at h
  | succ f ih =>
    rintro ⟨rest, buf, resp, sent⟩ r h
    match rest with
    | [] => exact Nat.succ_pos f
    | x :: xs =>
      simp only [stepRun, List.length_cons] at h ⊢
      split at h
      · exact Nat.succ_lt_succ (ih _ _ h)
      · split at h
        · exact Nat.succ_lt_succ (ih _ _ h)
        · split at h
          · exact Nat.succ_lt_succ (ih _ _ h)
          · split at h
            · split at h
              · exact absurd (by assumption) (append_nl_ne_empty x)
              · exact Nat.succ_lt_succ (ih _ _ h)
            · exact Nat.succ_lt_succ (ih _ _ h)

theorem pySplitF_of_not_hasSub (c0 : Char) (cs : List Char) :
    ∀ (fuel : Nat) (s : List Char), hasSub (c0 :: cs) s = false →
      pySplitF c0 cs fuel s = [s] := by
  intro fuel
  induction fuel with
  | zero => intro s _; rfl
  | succ f ih =>
    intro s h
    match s with
    | [] => rfl
    | c :: rest =>
      simp only [hasSub, Bool.or_eq_false_iff] at h
      simp only [pySplitF, h.1, Bool.false_eq_true, if_false, ih rest h.2]

theorem pySplit_marker_no_occurrence (s : String)
    (h : hasSub markerTok.data s.data = false) : pySplit markerTok s = [s] := by
  obtain ⟨d⟩ := s
  have hd : markerTok.data = 't' :: "hreat_level_justification".data := rfl
  unfold pySplit
  rw [hd] at h ⊢
  simp only [pySplitF_of_not_hasSub 't' "hreat_level_justification".data _ _ h, List.map]

theorem parseVerdict_of_no_marker (s : String)
    (h : hasSub markerTok.data s.data = false) : parseVerdict s = none := by
  unfold parseVerdict
  rw [pySplit_marker_no_occurrence s h]

theorem step_comment (client : Nat → String → Except String String) (fuel : Nat)
    (x : String) (xs : List String) (buf : String) (resp : List Verdict)
    (sent : List String)
    (hx : pyStartsWith (x ++ "\n") "---" = true ∨
      pyStartsWith (x ++ "\n") "&gt;&gt;" = true) :
    stepRun client (fuel + 1) ⟨x :: xs, buf, resp, sent⟩ =
      stepRun client fuel ⟨xs, buf, resp, sent⟩ := by
  by_cases h1 : pyStartsWith (x ++ "\n") "---" = true
  · simp [stepRun, h1]
  · have h2 : pyStartsWith (x ++ "\n") "&gt;&gt;" = true := hx.resolve_left h1
    simp [stepRun, h1, h2]

theorem step_accum (client : Nat → String → Except String String) (fuel : Nat)
    (x : String) (xs : List String) (buf : String) (resp : List Verdict)
    (sent : List String)
    (h1 : pyStartsWith (x ++ "\n") "---" = false)
    (h2 : pyStartsWith (x ++ "\n") "&gt;&gt;" = false)
    (hw : countWords (buf ++ " " ++ (x ++ "\n")) < 50) :
    stepRun client (fuel + 1) ⟨x :: xs, buf, resp, sent⟩ =
      stepRun client fuel ⟨xs, buf ++ " " ++ (x ++ "\n"), resp, sent⟩ := by
  simp only [stepRun, h1, h2, Bool.false_eq_true, if_false]
  rw [if_pos ⟨hw, append_nl_ne_empty x⟩]

theorem step_flush_ok (client : Nat → String → Except String String) (fuel : Nat)
    (x : String) (xs : List String) (buf : String) (resp : List Verdict)
    (sent : List String) (tl j : String)
    (h1 : pyStartsWith (x ++ "\n") "---" = false)
    (h2 : pyStartsWith (x ++ "\n") "&gt;&gt;" = false)
    (hw : ¬ countWords (buf ++ " " ++ (x ++ "\n")) < 50)
    (hp : parseVerdict (detect_aggresive_language
        (client sent.length (buf ++ " " ++ (x ++ "\n")))).2 = some (tl, j)) :
    stepRun client (fuel + 1) ⟨x :: xs, buf, resp, sent⟩ =
      stepRun client fuel ⟨xs, "",
        resp ++ [⟨tl, j,
          (detect_aggresive_language (client sent.length (buf ++ " " ++ (x ++ "\n")))).2,
          "ok", buf ++ " " ++ (x ++ "\n"), none⟩],
        sent ++ [buf ++ " " ++ (x ++ "\n")]⟩ := by
  simp only [stepRun, h1, h2, Bool.false_eq_true, if_false]
  rw [if_neg (fun h => hw h.1)]
  split
  · next tj heq =>
    rw [hp] at heq
    cases heq
    rw [if_neg (append_nl_ne_empty x)]
  · next heq =>
    rw [hp] at heq
    cases heq

theorem step_flush_err (client : Nat → String → Except String String) (fuel : Nat)
    (x : String) (xs : List String) (buf : String) (resp : List Verdict)
    (sent : List String)
    (h1 : pyStartsWith (x ++ "\n") "---" = false)
    (h2 : pyStartsWith (x ++ "\n") "&gt;&gt;" = false)
    (hw : ¬ countWords (buf ++ " " ++ (x ++ "\n")) < 50)
    (hp : parseVerdict (detect_aggresive_language
        (client sent.length (buf ++ " " ++ (x ++ "\n")))).2 = none) :
    stepRun client (fuel + 1) ⟨x :: xs, buf, resp, sent⟩ =
      stepRun client fuel ⟨xs, buf ++ " " ++ (x ++ "\n"), resp,
        sent ++ [buf ++ " " ++ (x ++ "\n")]⟩ := by
  simp only [stepRun, h1, h2, Bool.false_eq_true, if_false]
  rw [if_neg (fun h => hw h.1)]
  split
  · next tj heq =>
    rw [hp] at heq
    cases heq
  · next heq => rfl

theorem step_eof_ok (client : Nat → String → Except String String) (fuel : Nat)
    (buf : String) (resp : List Verdict) (sent : List String) (tl j : String)
    (hp : parseVerdict (detect_aggresive_language
        (client sent.length (buf ++ " " ++ ""))).2 = some (tl, j)) :
    stepRun client (fuel + 1) ⟨[], buf, resp, sent⟩ =
      some (resp ++ [⟨tl, j,
          (detect_aggresive_language (client sent.length (buf ++ " " ++ ""))).2,
          "ok", buf ++ " " ++ "", none⟩],
        sent ++ [buf ++ " " ++ ""]) := by
  simp only [stepRun]
  rw [if_neg (by decide : ¬ pyStartsWith "" "---" = true)]
  rw [if_neg (by decide : ¬ pyStartsWith "" "&gt;&gt;" = true)]
  rw [if_neg (fun h => h.2 rfl :
    ¬ (countWords (buf ++ " " ++ "") < 50 ∧ ("" : String) ≠ ""))]
  split
  · next tj heq =>
    rw [hp] at heq
    cases heq
    simp
  · next heq =>
    rw [hp] at heq
    cases heq

theorem step_eof_err (client : Nat → String → Except String String) (fuel : Nat)
    (buf : String) (resp : List Verdict) (sent : List String)
    (hp : parseVerdict (detect_aggresive_language
        (client sent.length (buf ++ " " ++ ""))).2 = none) :
    stepRun client (fuel + 1) ⟨[], buf, resp, sent⟩ =
      stepRun client fuel ⟨[], buf ++ " " ++ "", resp, sent ++ [buf ++ " " ++ ""]⟩ := by
  simp only [stepRun]
  rw [if_neg (by decide : ¬ pyStartsWith "" "---" = true)]
  rw [if_neg (by decide : ¬ pyStartsWith "" "&gt;&gt;" = true)]
  rw [if_neg (fun h => h.2 rfl :
    ¬ (countWords (buf ++ " " ++ "") < 50 ∧ ("" : String) ≠ ""))]
  split
  · next tj heq =>
    rw [hp] at heq
    cases heq
  · next heq => rfl

theorem stepRun_badClient_eof_none :
    ∀ (fuel : Nat) (buf : String) (resp : List Verdict) (sent : List String),
      stepRun badClient fuel ⟨[], buf, resp, sent⟩ = none := by
  intro fuel
  induction fuel with
  | zero => intro buf resp sent; rfl
  | succ f ih =>
    intro buf resp sent
    rw [step_eof_err badClient f buf resp sent (by rfl)]
    exact ih _ _ _

/-- Claim C4 (code bug): the spec says a started `classify` call always runs
to completion or raises, no window-level failure blocking it.  The code does
not: when the flush of the end-of-file buffer fails (here: a collaborator
that always raises, whose error string lacks the marker), the `continue` in
the error branch skips the `if l == '': break`, `readline` keeps returning
`''`, and the loop re-flushes forever.  For every fuel bound, a cache-miss
call on a zero-line source with the always-failing collaborator is still
running. -/
theorem c4_loop_never_terminates (fuel : Nat) :
    process_file badClient fuel [] "f4" [] = none := by
  unfold process_file
  simp only [lookupStore]
  rw [stepRun_badClient_eof_none fuel "" [] []]

/-- Claim C10: `detect_aggresive_language` wraps the whole client
interaction in `try/except Exception`, so it never propagates an exception:
for every client behavior it returns a pair — `("success", json.dumps
content)` when the client call returns a message content, `("error",
str(e))` when the client raises `e`. -/
theorem c10_detect_never_raises (behavior : Except String String) :
    (∃ content, behavior = Except.ok content ∧
      detect_aggresive_language behavior = ("success", jsonDumps content)) ∨
    (∃ e, behavior = Except.error e ∧
      detect_aggresive_language behavior = ("error", e)) := by
  cases behavior with
  | ok content => exact Or.inl ⟨content, rfl, rfl⟩
  | error e => exact Or.inr ⟨e, rfl, rfl⟩

/-- Claim C5 counterexample: on a cache miss for a zero-line source, the
code does NOT return an empty ResultSet with zero collaborator contacts:
the EOF iteration appends `" "` to the empty buffer and flushes it, so the
collaborator is contacted once (submitted texts `[" "]`), and with a
collaborator whose response parses, the returned ResultSet has one Verdict
whose text is `" "`. -/
theorem c5_counterexample :
    process_file okClient 3 [] "f5" [] =
      some ([⟨"high", " fine\"", "\"lvl high threat_level_justification fine\"",
          "ok", " ", none⟩],
        [("/nycc_data/processed/f5_processed.json",
          [⟨"high", " fine\"", "\"lvl high threat_level_justification fine\"",
            "ok", " ", none⟩])],
        [" "]) := by decide

/-- Claim C5 amended: for every zero-line source on a cache miss the loop
still flushes at end of file: the single-space buffer is submitted to the
collaborator, and when that first response parses as `(tl, j)` the call
returns a singleton ResultSet whose verdict text is the single-space buffer,
with exactly one collaborator contact (and one write). -/
theorem c5_empty_source_contacts_collaborator
    (client : Nat → String → Except String String) (fuel : Nat) (store : Store)
    (file : String) (tl j : String)
    (hstore : lookupStore store (resPath file) = none)
    (hfuel : 1 ≤ fuel)
    (hp : parseVerdict (detect_aggresive_language (client 0 ("" ++ " " ++ ""))).2
      = some (tl, j)) :
    process_file client fuel store file [] =
      some ([⟨tl, j, (detect_aggresive_language (client 0 ("" ++ " " ++ ""))).2,
          "ok", "" ++ " " ++ "", none⟩],
        (resPath file,
          [⟨tl, j, (detect_aggresive_language (client 0 ("" ++ " " ++ ""))).2,
            "ok", "" ++ " " ++ "", none⟩]) :: store,
        ["" ++ " " ++ ""]) := by
  obtain ⟨f, rfl⟩ := Nat.exists_eq_add_of_le hfuel
  unfold process_file
  rw [hstore]
  rw [show 1 + f = f + 1 from Nat.add_comm 1 f]
  rw [step_eof_ok client f "" [] [] tl j hp]
  rfl

/-- Claim C5 witness: the amended statement at a concrete input — empty
store, empty source, the always-succeeding collaborator. -/
theorem c5_witness :
    process_file okClient 1 [] "f5w" [] =
      some ([⟨"high", " fine\"",
          (detect_aggresive_language (okClient 0 ("" ++ " " ++ ""))).2,
          "ok", "" ++ " " ++ "", none⟩],
        (resPath "f5w",
          [⟨"high", " fine\"",
            (detect_aggresive_language (okClient 0 ("" ++ " " ++ ""))).2,
            "ok", "" ++ " " ++ "", none⟩]) :: [],
        ["" ++ " " ++ ""]) :=
  c5_empty_source_contacts_collaborator okClient 1 [] "f5w" "high" " fine\""
    rfl (Nat.le_refl 1) (by decide)

set_option maxRecDepth 100000 in
/-- Claim C1 counterexample: "the collaborator is contacted at most once in
total" fails.  A cache-miss call on a one-line source of 50 words already
contacts the collaborator twice: once when the line reaches the 50-word
minimum, and once more when the EOF iteration flushes the leftover
single-space buffer.  (The second call then adds zero contacts, so the
claimed total of one is still exceeded.) -/
theorem c1_counterexample :
    (process_file okClient 5 [] "f1" [mkWords 50]).map (fun r => r.2.2.length) =
      some 2 := by decide

/-- Claim C1 amended: if a result file already exists at the derived result
path, `process_file` returns its content verbatim with zero collaborator
contacts and zero writes; and after any call that returns (hit or miss),
a further call for the same file returns the identical ResultSet with zero
contacts and an unchanged store — so a ResultSet file, once written, is
never overwritten.  (On a first, cache-miss call the collaborator is
contacted once per flushed window, which can exceed one; all contacts
happen in the first call and none in the second.) -/
theorem c1_cache_authoritative :
    (∀ (client : Nat → String → Except String String) (fuel : Nat)
        (store : Store) (file : String) (src : List String) (v : List Verdict),
        lookupStore store (resPath file) = some v →
        process_file client fuel store file src = some (v, store, [])) ∧
    (∀ (client client2 : Nat → String → Except String String) (fuel fuel2 : Nat)
        (store : Store) (file : String) (src src2 : List String)
        (r : List Verdict) (store2 : Store) (sent : List String),
        process_file client fuel store file src = some (r, store2, sent) →
        process_file client2 fuel2 store2 file src2 = some (r, store2, [])) := by
  constructor
  · intro client fuel store file src v hv
    unfold process_file
    rw [hv]
  · intro client client2 fuel fuel2 store file src src2 r store2 sent h
    unfold process_file at h ⊢
    cases hl : lookupStore store (resPath file) with
    | some v =>
      rw [hl] at h
      obtain ⟨rfl, rfl, rfl⟩ :
          v = r ∧ store = store2 ∧ ([] : List String) = sent := by
        simpa using h
      rw [hl]
    | none =>
      rw [hl] at h
      cases hrun : stepRun client fuel ⟨src, "", [], []⟩ with
      | none => rw [hrun] at h; cases h
      | some p =>
        rw [hrun] at h
        obtain ⟨resp, sentv⟩ := p
        obtain ⟨rfl, rfl, rfl⟩ :
            resp = r ∧ (resPath file, resp) :: store = store2 ∧ sentv = sent := by
          simpa using h
        simp [lookupStore]

/-- Claim C1 witness: a first cache-miss call on an empty source writes the
result, and a second call (different collaborator, zero fuel) returns the
identical ResultSet with zero contacts and the store unchanged. -/
theorem c1_witness :
    process_file badClient 0
      [(resPath "f1w",
        [⟨"high", " fine\"", "\"lvl high threat_level_justification fine\"",
          "ok", " ", none⟩])]
      "f1w" ["anything"] =
      some ([⟨"high", " fine\"", "\"lvl high threat_level_justification fine\"",
          "ok", " ", none⟩],
        [(resPath "f1w",
          [⟨"high", " fine\"", "\"lvl high threat_level_justification fine\"",
            "ok", " ", none⟩])],
        []) :=
  c1_cache_authoritative.2 okClient badClient 3 0 [] "f1w" [] ["anything"]
    [⟨"high", " fine\"", "\"lvl high threat_level_justification fine\"", "ok", " ", none⟩]
    [(resPath "f1w",
      [⟨"high", " fine\"", "\"lvl high threat_level_justification fine\"",
        "ok", " ", none⟩])]
    [" "] (by decide)

/-- Claim C2 counterexample: the code does not split on the FIRST occurrence
of the marker.  `str.split` cuts at every occurrence and the tuple
unpacking demands exactly two segments, so a response containing the marker
twice raises `ValueError` (parse failure), where first-occurrence splitting
would succeed. -/
theorem c2_counterexample :
    parseVerdict "a threat_level_justification b threat_level_justification c" = none ∧
    parseSpecFirstOccurrence "a threat_level_justification b threat_level_justification c" =
      some ("", " b threat_level_justification c") := by decide

/-- Claim C2 amended: the parser splits the raw response on ALL occurrences
of the marker token and succeeds exactly when this yields two segments (the
marker occurs exactly once); then the left segment, with its first
space-delimited token discarded and the remaining tokens rejoined without
separators, becomes `threat_level`, and the right segment becomes
`justification` verbatim.  The claim's concrete example stands:
`parse("threat_level high threat_level_justification Because of explicit
threats.")` yields `("high", " Because of explicit threats.")`. -/
theorem c2_marker_split_semantics (s l r : String)
    (h : pySplit markerTok s = [l, r]) :
    parseVerdict s = some (String.join ((pySplit " " l).drop 1), r) ∧
    parseVerdict "threat_level high threat_level_justification Because of explicit threats."
      = some ("high", " Because of explicit threats.") := by
  constructor
  · unfold parseVerdict
    rw [h]
  · decide

/-- Claim C2 witness: the amended parser description at a concrete
response. -/
theorem c2_witness :
    pySplit markerTok "x garbage threat_level_justification j" = ["x garbage ", " j"] ∧
    parseVerdict "x garbage threat_level_justification j" =
      some (String.join ((pySplit " " "x garbage ").drop 1), " j") :=
  ⟨by decide,
    (c2_marker_split_semantics "x garbage threat_level_justification j" "x garbage " " j"
      (by decide)).1⟩

/-- Claim C6 counterexample: "for every response string that does contain
the marker token, parse succeeds" fails — a response containing the marker
twice contains the marker, yet the split yields three segments and the
tuple unpacking raises (`parse` fails). -/
theorem c6_counterexample :
    hasSub markerTok.data
      "m threat_level_justification x threat_level_justification y".data = true ∧
    parseVerdict "m threat_level_justification x threat_level_justification y" = none := by
  decide

/-- Claim C6 amended: parse fails whenever the marker token is absent from
the response (in particular on `"no marker present"`), and also when the
marker occurs more than once; when it succeeds, the extracted
`threat_level` is accepted as-is with no validation against the six
recognized labels — e.g. the unrecognized label `"garbage"` is returned
unchanged. -/
theorem c6_no_marker_fails_no_validation (s : String)
    (h : hasSub markerTok.data s.data = false) :
    parseVerdict s = none ∧
    parseVerdict "no marker present" = none ∧
    parseVerdict "lbl garbage threat_level_justification j" = some ("garbage", " j") ∧
    ¬ "garbage" ∈ recognizedLabels :=
  ⟨parseVerdict_of_no_marker s h, by decide, by decide, by decide⟩

/-- Claim C6 witness: the amended statement at a concrete marker-free
response. -/
theorem c6_witness :
    hasSub markerTok.data "no marker here either".data = false ∧
    parseVerdict "no marker here either" = none :=
  ⟨by decide,
    (c6_no_marker_fails_no_validation "no marker here either" (by decide)).1⟩

theorem okInv_append (resp : List Verdict) (tl j pred buf : String)
    (hinv : ∀ v ∈ resp, v.status = "ok" ∧ v.error = none) :
    ∀ v ∈ resp ++ [(⟨tl, j, pred, "ok", buf, none⟩ : Verdict)],
      v.status = "ok" ∧ v.error = none := by
  intro v hv
  rcases List.mem_append.mp hv with h | h
  · exact hinv v h
  · rw [List.mem_singleton.mp h]
    exact ⟨rfl, rfl⟩

theorem stepRun_ok_only {client : Nat → String → Except String String} :
    ∀ (fuel : Nat) (st : PState) (r : List Verdict × List String),
      stepRun client fuel st = some r →
      (∀ v ∈ st.resp, v.status = "ok" ∧ v.error = none) →
      ∀ v ∈ r.1, v.status = "ok" ∧ v.error = none := by
  intro fuel
  induction fuel with
  | zero => intro st r h; simp [stepRun] at h
  | succ f ih =>
    rintro ⟨rest, buf, resp, sent⟩ r h hinv
    match rest with
    | [] =>
      simp only [stepRun] at h
      rw [if_neg (by decide : ¬ pyStartsWith "" "---" = true)] at h
      rw [if_neg (by decide : ¬ pyStartsWith "" "&gt;&gt;" = true)] at h
      rw [if_neg (fun hh => hh.2 rfl :
        ¬ (countWords (buf ++ " " ++ "") < 50 ∧ ("" : String) ≠ ""))] at h
      split at h
      · simp only [if_true] at h
        cases h
        exact okInv_append resp _ _ _ _ (fun v hv => hinv v hv)
      · exact ih _ _ h (fun v hv => hinv v hv)
    | x :: xs =>
      simp only [stepRun] at h
      split at h
      · exact ih _ _ h (fun v hv => hinv v hv)
      · split at h
        · exact ih _ _ h (fun v hv => hinv v hv)
        · split at h
          · exact ih _ _ h (fun v hv => hinv v hv)
          · split at h
            · split at h
              · cases h
                exact okInv_append resp _ _ _ _ (fun v hv => hinv v hv)
              · exact ih _ _ h
                  (fun v hv => okInv_append resp _ _ _ _ (fun w hw => hinv w hw) v hv)
            · exact ih _ _ h (fun v hv => hinv v hv)

set_option maxRecDepth 400000 in
/-- Claim C3 counterexample: a failed window's content is NOT discarded — it
is carried forward.  On a two-line source (50 words each) with a
collaborator that raises on the first call only, the first flush fails and
the buffer is not reset, so the second (successful) flush submits and
records both lines: the single ok Verdict's text is the concatenation of
BOTH windows, and the first window's text occurs inside it. -/
theorem c3_counterexample :
    (process_file flakyClient 6 [] "f3" [mkWords 50, mkWords 50]).map
        (fun r => (r.1.map Verdict.text, r.2.2)) =
      some ([" " ++ mkWords 50 ++ "\n " ++ mkWords 50 ++ "\n", " "],
        [" " ++ mkWords 50 ++ "\n",
         " " ++ mkWords 50 ++ "\n " ++ mkWords 50 ++ "\n", " "]) ∧
    hasSub (" " ++ mkWords 50 ++ "\n").data
      (" " ++ mkWords 50 ++ "\n " ++ mkWords 50 ++ "\n").data = true := by decide

/-- Claim C3 amended: on a cache miss, when classification of a window
fails, no Verdict is appended — but the window buffer is NOT reset: the
failed content stays in the buffer and is carried forward into the next
flush (together with the next line).  The pipeline continues, and any
result list it returns contains only status-ok Verdicts (no error entry is
ever appended). -/
theorem c3_failure_appends_nothing_keeps_buffer :
    (∀ (client : Nat → String → Except String String) (fuel : Nat)
        (x : String) (xs : List String) (buf : String) (resp : List Verdict)
        (sent : List String),
        pyStartsWith (x ++ "\n") "---" = false →
        pyStartsWith (x ++ "\n") "&gt;&gt;" = false →
        ¬ countWords (buf ++ " " ++ (x ++ "\n")) < 50 →
        parseVerdict (detect_aggresive_language
          (client sent.length (buf ++ " " ++ (x ++ "\n")))).2 = none →
        stepRun client (fuel + 1) ⟨x :: xs, buf, resp, sent⟩ =
          stepRun client fuel ⟨xs, buf ++ " " ++ (x ++ "\n"), resp,
            sent ++ [buf ++ " " ++ (x ++ "\n")]⟩) ∧
    (∀ (client : Nat → String → Except String String) (fuel : Nat)
        (src : List String) (r : List Verdict × List String),
        stepRun client fuel ⟨src, "", [], []⟩ = some r →
        ∀ v ∈ r.1, v.status = "ok" ∧ v.error = none) :=
  ⟨fun client fuel x xs buf resp sent h1 h2 hw hp =>
      step_flush_err client fuel x xs buf resp sent h1 h2 hw hp,
   fun client fuel src r h =>
      stepRun_ok_only fuel ⟨src, "", [], []⟩ r h (by intro v hv; cases hv)⟩

set_option maxRecDepth 400000 in
/-- Claim C3 witness: the amended statement at concrete inputs — a failing
first flush on a 50-word line carries the buffer, and a completed run
yields only ok Verdicts. -/
theorem c3_witness :
    stepRun flakyClient (0 + 1) ⟨[mkWords 50], "", [], []⟩ =
      stepRun flakyClient 0 ⟨[], "" ++ " " ++ (mkWords 50 ++ "\n"), [],
        [] ++ ["" ++ " " ++ (mkWords 50 ++ "\n")]⟩ ∧
    ((⟨"high", " fine\"", "\"lvl high threat_level_justification fine\"",
        "ok", " ", none⟩ : Verdict).status = "ok" ∧
      (⟨"high", " fine\"", "\"lvl high threat_level_justification fine\"",
        "ok", " ", none⟩ : Verdict).error = none) :=
  ⟨c3_failure_appends_nothing_keeps_buffer.1 flakyClient 0 (mkWords 50) [] "" [] []
      (by decide) (by decide) (by decide) (by decide),
   c3_failure_appends_nothing_keeps_buffer.2 okClient 2 []
      ([⟨"high", " fine\"", "\"lvl high threat_level_justification fine\"",
        "ok", " ", none⟩], [" "])
      (by decide) _ (by decide)⟩

set_option maxRecDepth 400000 in
/-- Claim C7 counterexample: for a 3-line source of 20 words per line,
"exactly one window is submitted" fails, and the window is not the plain
single-space concatenation of the lines.  The collaborator receives TWO
submissions: the 60-word window (a leading space, each raw line keeping its
trailing newline) and then the leftover single-space EOF buffer. -/
theorem c7_counterexample :
    (process_file okClient 6 [] "f7" [mkWords 20, mkWords 20, mkWords 20]).map
        (fun r => r.2.2) =
      some [" " ++ mkWords 20 ++ "\n " ++ mkWords 20 ++ "\n " ++ mkWords 20 ++ "\n",
        " "] ∧
    " " ++ mkWords 20 ++ "\n " ++ mkWords 20 ++ "\n " ++ mkWords 20 ++ "\n" ≠
      mkWords 20 ++ " " ++ mkWords 20 ++ " " ++ mkWords 20 := by decide

/-- Claim C7 amended: for the 3-line source of 20 words per line with
minimum 50, lines 1 and 2 accumulate without flushing (20 then 40 words,
below the minimum), line 3 brings the buffer to 60 words and triggers a
flush whose window is the three raw lines, each preceded by a single space
and keeping its trailing newline; after that flush the EOF iteration
submits a second, single-space window, so the collaborator receives two
submissions in total. -/
theorem c7_third_line_flushes
    (client : Nat → String → Except String String) (f : Nat) (store : Store)
    (file : String) (t1 j1 t2 j2 : String)
    (hstore : lookupStore store (resPath file) = none)
    (h0 : parseVerdict (detect_aggresive_language (client 0 winC7)).2 = some (t1, j1))
    (h1 : parseVerdict (detect_aggresive_language (client 1 " ")).2 = some (t2, j2)) :
    process_file client (f + 4) store file [mkWords 20, mkWords 20, mkWords 20] =
      some ([⟨t1, j1, (detect_aggresive_language (client 0 winC7)).2, "ok", winC7, none⟩,
             ⟨t2, j2, (detect_aggresive_language (client 1 " ")).2, "ok", " ", none⟩],
        (resPath file,
          [⟨t1, j1, (detect_aggresive_language (client 0 winC7)).2, "ok", winC7, none⟩,
           ⟨t2, j2, (detect_aggresive_language (client 1 " ")).2, "ok", " ", none⟩]) :: store,
        [winC7, " "]) := by
  have hrun : stepRun client (f + 4) ⟨[mkWords 20, mkWords 20, mkWords 20], "", [], []⟩ =
      some ([⟨t1, j1, (detect_aggresive_language (client 0 winC7)).2, "ok", winC7, none⟩,
             ⟨t2, j2, (detect_aggresive_language (client 1 " ")).2, "ok", " ", none⟩],
        [winC7, " "]) := by
    show stepRun client (f + 3 + 1) ⟨[mkWords 20, mkWords 20, mkWords 20], "", [], []⟩ = _
    rw [step_accum client (f + 3) (mkWords 20) [mkWords 20, mkWords 20] "" [] []
      (by decide) (by decide) (by decide)]
    show stepRun client (f + 2 + 1) _ = _
    rw [step_accum client (f + 2) (mkWords 20) [mkWords 20]
      ("" ++ " " ++ (mkWords 20 ++ "\n")) [] [] (by decide) (by decide) (by decide)]
    show stepRun client (f + 1 + 1) _ = _
    rw [step_flush_ok client (f + 1) (mkWords 20) []
      ("" ++ " " ++ (mkWords 20 ++ "\n") ++ " " ++ (mkWords 20 ++ "\n")) [] [] t1 j1
      (by decide) (by decide) (by decide) h0]
    show stepRun client (f + 1) _ = _
    rw [step_eof_ok client f "" _
      ([] ++ ["" ++ " " ++ (mkWords 20 ++ "\n") ++ " " ++ (mkWords 20 ++ "\n")
        ++ " " ++ (mkWords 20 ++ "\n")])
      t2 j2 (by exact h1)]
    rfl
  unfold process_file
  rw [hstore, hrun]

set_option maxRecDepth 400000 in
/-- Claim C7 witness: the amended scenario with the always-succeeding
collaborator, an empty store, and fuel 4. -/
theorem c7_witness :
    process_file okClient 4 [] "f7w" [mkWords 20, mkWords 20, mkWords 20] =
      some ([⟨"high", " fine\"", (detect_aggresive_language (okClient 0 winC7)).2,
            "ok", winC7, none⟩,
             ⟨"high", " fine\"", (detect_aggresive_language (okClient 1 " ")).2,
            "ok", " ", none⟩],
        (resPath "f7w",
          [⟨"high", " fine\"", (detect_aggresive_language (okClient 0 winC7)).2,
            "ok", winC7, none⟩,
           ⟨"high", " fine\"", (detect_aggresive_language (okClient 1 " ")).2,
            "ok", " ", none⟩]) :: [],
        [winC7, " "]) :=
  c7_third_line_flushes okClient 0 [] "f7w" "high" " fine\"" "high" " fine\""
    rfl (by decide) (by decide)

theorem stepRun_below_min_single_flush (client : Nat → String → Except String String)
    (tl j : String) :
    ∀ (src : List String) (fuel : Nat) (buf : String) (resp : List Verdict)
      (sent : List String),
      (∀ x ∈ src, pyStartsWith (x ++ "\n") "---" = false ∧
        pyStartsWith (x ++ "\n") "&gt;&gt;" = false) →
      countWords buf + (src.map countWords).sum < 50 →
      parseVerdict (detect_aggresive_language (client sent.length
        (List.foldl (fun b x => b ++ " " ++ (x ++ "\n")) buf src ++ " " ++ ""))).2
        = some (tl, j) →
      stepRun client (fuel + src.length + 1) ⟨src, buf, resp, sent⟩ =
        some (resp ++ [⟨tl, j,
            (detect_aggresive_language (client sent.length
              (List.foldl (fun b x => b ++ " " ++ (x ++ "\n")) buf src ++ " " ++ ""))).2,
            "ok",
            List.foldl (fun b x => b ++ " " ++ (x ++ "\n")) buf src ++ " " ++ "", none⟩],
          sent ++ [List.foldl (fun b x => b ++ " " ++ (x ++ "\n")) buf src ++ " " ++ ""]) := by
  intro src
  induction src with
  | nil =>
    intro fuel buf resp sent _ _ hp
    exact step_eof_ok client (fuel + 0) buf resp sent tl j hp
  | cons x xs ih =>
    intro fuel buf resp sent hc hsum hp
    have hx := hc x (List.mem_cons_self x xs)
    have hsum' : (List.map countWords (x :: xs)).sum =
        countWords x + (List.map countWords xs).sum := by simp
    have hw : countWords (buf ++ " " ++ (x ++ "\n")) < 50 := by
      rw [countWords_append_space, countWords_append_nl]
      omega
    show stepRun client ((fuel + xs.length + 1) + 1) ⟨x :: xs, buf, resp, sent⟩ = _
    rw [step_accum client (fuel + xs.length + 1) x xs buf resp sent hx.1 hx.2 hw]
    exact ih fuel (buf ++ " " ++ (x ++ "\n")) resp sent
      (fun y hy => hc y (List.mem_cons_of_mem x hy))
      (by rw [countWords_append_space, countWords_append_nl]; omega)
      hp

/-- Claim C8: for every source whose lines (none comment-marked) accumulate
into a single window staying below the 50-word minimum, the pipeline
flushes that window when the end of the document is reached (`readline`
returning the empty string), submitting its full text to the collaborator
regardless of the word count — one contact, and when the response parses,
one ok Verdict carrying the full window text. -/
theorem c8_eof_flush_below_minimum
    (client : Nat → String → Except String String) (fuel : Nat) (store : Store)
    (file : String) (src : List String) (tl j : String)
    (hstore : lookupStore store (resPath file) = none)
    (hc : ∀ x ∈ src, pyStartsWith (x ++ "\n") "---" = false ∧
      pyStartsWith (x ++ "\n") "&gt;&gt;" = false)
    (hsum : (src.map countWords).sum < 50)
    (hp : parseVerdict (detect_aggresive_language (client 0 (windowText src))).2
      = some (tl, j)) :
    process_file client (fuel + src.length + 1) store file src =
      some ([⟨tl, j, (detect_aggresive_language (client 0 (windowText src))).2,
          "ok", windowText src, none⟩],
        (resPath file,
          [⟨tl, j, (detect_aggresive_language (client 0 (windowText src))).2,
            "ok", windowText src, none⟩]) :: store,
        [windowText src]) := by
  have hz : countWords "" + (src.map countWords).sum < 50 := by
    have : countWords "" = 0 := rfl
    omega
  have hrun := stepRun_below_min_single_flush client tl j src fuel "" [] [] hc hz hp
  unfold process_file
  rw [hstore, hrun]
  rfl

/-- Claim C8 witness: one two-word line, far below the minimum, flushed at
EOF with the always-succeeding collaborator. -/
theorem c8_witness :
    process_file okClient 2 [] "f8w" ["hello world"] =
      some ([⟨"high", " fine\"",
          (detect_aggresive_language (okClient 0 (windowText ["hello world"]))).2,
          "ok", windowText ["hello world"], none⟩],
        (resPath "f8w",
          [⟨"high", " fine\"",
            (detect_aggresive_language (okClient 0 (windowText ["hello world"]))).2,
            "ok", windowText ["hello world"], none⟩]) :: [],
        [windowText ["hello world"]]) :=
  c8_eof_flush_below_minimum okClient 0 [] "f8w" ["hello world"] "high" " fine\""
    rfl (by decide) (by decide) (by decide)

/-- Claim C9: comment/quote-marked lines are skipped entirely.  Running the
loop on a source equals running it on the source with all `---`/`&gt;&gt;`
lines removed (each skipped line consumes exactly one loop iteration and
changes nothing else): same buffer growth, same submissions, same verdicts
— so a skipped line contributes zero words to every window and appears in
no persisted Verdict text. -/
theorem c9_comment_lines_skipped (client : Nat → String → Except String String) :
    ∀ (src : List String) (fuel : Nat) (buf : String) (resp : List Verdict)
      (sent : List String),
      stepRun client (fuel + (src.filter isCommentLine).length) ⟨src, buf, resp, sent⟩ =
        stepRun client fuel ⟨src.filter (fun x => ! isCommentLine x), buf, resp, sent⟩ := by
  intro src
  induction src with
  | nil => intro fuel buf resp sent; rfl
  | cons x xs ih =>
    intro fuel buf resp sent
    by_cases hcx : isCommentLine x = true
    · rw [List.filter_cons_of_pos hcx,
        List.filter_cons_of_neg (by simp [hcx])]
      show stepRun client ((fuel + (xs.filter isCommentLine).length) + 1)
        ⟨x :: xs, buf, resp, sent⟩ = _
      rw [step_comment client _ x xs buf resp sent
        (by simpa [isCommentLine, Bool.or_eq_true] using hcx)]
      exact ih fuel buf resp sent
    · rw [List.filter_cons_of_neg hcx, List.filter_cons_of_pos (by simp [hcx])]
      obtain ⟨h1, h2⟩ : pyStartsWith (x ++ "\n") "---" = false ∧
          pyStartsWith (x ++ "\n") "&gt;&gt;" = false := by
        simpa [isCommentLine, Bool.or_eq_false_iff] using hcx
      cases fuel with
      | zero =>
        cases hL : stepRun client (0 + (xs.filter isCommentLine).length)
            ⟨x :: xs, buf, resp, sent⟩ with
        | none => rfl
        | some r =>
          have hlt := stepRun_rest_length _ _ _ hL
          have hk : (xs.filter isCommentLine).length ≤ xs.length :=
            List.length_filter_le _ _
          simp only [List.length_cons] at hlt
          omega
      | succ f =>
        have harith : f + 1 + (xs.filter isCommentLine).length =
            (f + (xs.filter isCommentLine).length) + 1 := by omega
        rw [harith]
        by_cases hw : countWords (buf ++ " " ++ (x ++ "\n")) < 50
        · rw [step_accum client _ x xs buf resp sent h1 h2 hw,
            step_accum client f x _ buf resp sent h1 h2 hw]
          exact ih f _ resp sent
        · cases hp : parseVerdict (detect_aggresive_language
              (client sent.length (buf ++ " " ++ (x ++ "\n")))).2 with
          | some tj =>
            obtain ⟨tlv, jv⟩ := tj
            rw [step_flush_ok client _ x xs buf resp sent tlv jv h1 h2 hw hp,
              step_flush_ok client f x _ buf resp sent tlv jv h1 h2 hw hp]
            exact ih f _ _ _
          | none =>
            rw [step_flush_err client _ x xs buf resp sent h1 h2 hw hp,
              step_flush_err client f x _ buf resp sent h1 h2 hw hp]
            exact ih f _ _ _
